import Mathlib

/-!
Verification development for the sys-stats live terminal dashboard
(`src/cli.py`, with `src/cli-condensed.py` for the condensed variant).

The Python code is shallowly embedded as executable Lean definitions:

* JSON payloads returned by the metrics endpoint are modelled by `JsonVal`;
  Python dynamic failures (TypeError, KeyError, ...) are modelled by
  `Except PyError`.
* Python float arithmetic on JSON numbers is modelled over exact rationals;
  the format specs `:.1f` and `:.0f` are modelled by round-half-even over
  those rationals (`fmtOneDec`, `fmt0Dec`).
* The render loop body of `main` (cli.py lines 398-432) is the step function
  `cycleBody`; the per-keypress body of `keyboard_listener` (lines 357-376)
  is `handle_key`; the interruptible wait (lines 434-440) is `waitPhase`,
  measured in 100ms polling ticks (one second = 10 ticks).
* `fetch_stats` (lines 40-48) returns a pair: the parsed snapshot option and
  the error that the function printed to the console on failure (the caught
  `RequestException`, covering network errors, `raise_for_status` HTTP
  errors, and -- with requests >= 2.27, where `JSONDecodeError` derives from
  `RequestException` -- body parse errors).
-/

/-! ### Numeric formatting (Python format specs over exact rationals) -/

/-- Round half to even -- the rounding used by Python float formatting --
of the fraction `num / den` (`den` positive, the fraction need not be in
lowest terms): with `f = ⌊num / den⌋` and `t = num - f * den`, the
fractional part `t / den` is compared with 1/2 by comparing `2 * t` with
`den`. Stated over a raw `Int` fraction so that it evaluates by kernel
reduction. -/
def roundHalfEvenFrac (num den : Int) : Int :=
  let f : Int := Int.fdiv num den
  let t : Int := num - f * den
  if 2 * t < den then f
  else if den < 2 * t then f + 1
  else if f % 2 = 0 then f else f + 1

/-- Model of the Python format spec `:.1f` on the fraction `num / den`. -/
def fmtOneDecFrac (num den : Int) : String :=
  let n := roundHalfEvenFrac (10 * num) den
  let sign := if n < 0 then "-" else ""
  sign ++ toString (n.natAbs / 10) ++ "." ++ toString (n.natAbs % 10)

/-- Model of the Python format spec `:.1f`. -/
def fmtOneDec (q : ℚ) : String :=
  fmtOneDecFrac q.num (q.den : Int)

/-- Model of the Python format spec `:.0f`. -/
def fmt0Dec (q : ℚ) : String :=
  toString (roundHalfEvenFrac q.num (q.den : Int))

/-! ### `human_readable_size` (cli.py lines 51-57, cli-condensed.py lines 26-34)

The two sources are textually identical loops over the unit list
`["B", "KB", "MB", "GB", "TB"]` with `size /= 1024` per step; they differ
only in the unit of the final fallback f-string (`TB` in cli.py, `PB` in
cli-condensed.py). The loop is translated as recursion over the unit list,
with the differing fallback unit as a parameter. The running size is
carried as the unreduced fraction `num / den` (`den` positive), so one
division by 1024 multiplies the denominator by 1024; `num < 1024 * den` is
`size < 1024`. The fraction representation keeps the function
kernel-computable; its value is the same exact rational at every step. -/

def hrs_aux (fallbackUnit : String) : List String → Int → Int → String
  | [], num, den => fmtOneDecFrac num den ++ " " ++ fallbackUnit
  | unit :: units, num, den =>
    if num < 1024 * den then fmtOneDecFrac num den ++ " " ++ unit
    else hrs_aux fallbackUnit units num (1024 * den)

/-- `human_readable_size` from cli.py (fallback unit `TB`). -/
def human_readable_size (size : ℚ) : String :=
  hrs_aux "TB" ["B", "KB", "MB", "GB", "TB"] size.num (size.den : Int)

/-- `human_readable_size` from cli-condensed.py (fallback unit `PB`). -/
def human_readable_size_condensed (size : ℚ) : String :=
  hrs_aux "PB" ["B", "KB", "MB", "GB", "TB"] size.num (size.den : Int)

/-! ### ISO-8601 parsing and `time_until` (cli.py lines 60-70)

`datetime.fromisoformat` is modelled on the documented core of its grammar:
`YYYY-MM-DD`, optionally followed by a one-character separator and
`HH:MM:SS`, an optional fractional-second part (parsed and discarded: the
model works at whole-second granularity), and an optional `+HH:MM`/`-HH:MM`
offset. Dates are validated against month lengths including leap years,
exactly as the `datetime` constructor validates them. Timestamps without an
offset are naive; `astimezone(timezone.utc)` interprets a naive timestamp in
the local timezone, modelled by the explicit `localOff` parameter (local
timezone offset from UTC, in seconds). Instants are UTC epoch seconds. -/

def digitsToNat (cs : List Char) : Option Nat :=
  if cs ≠ [] ∧ cs.all (·.isDigit) then
    some (cs.foldl (fun a c => a * 10 + (c.toNat - 48)) 0)
  else none

def isLeap (y : Nat) : Bool :=
  (y % 4 = 0 && y % 100 != 0) || y % 400 = 0

def daysInMonth (y : Nat) (m : Nat) : Nat :=
  if m = 2 then (if isLeap y then 29 else 28)
  else if m = 4 ∨ m = 6 ∨ m = 9 ∨ m = 11 then 30
  else 31

/-- Days from 1970-01-01 of the civil date y-m-d (Hinnant's algorithm;
Lean's `Int` division truncates toward zero, as the algorithm expects). -/
def daysFromCivil (y0 : Nat) (m d : Nat) : Int :=
  let y : Int := if m ≤ 2 then (y0 : Int) - 1 else (y0 : Int)
  let era : Int := (if 0 ≤ y then y else y - 399) / 400
  let yoe : Int := y - era * 400
  let mp : Nat := (m + 9) % 12
  let doy : Nat := (153 * mp + 2) / 5 + d - 1
  let doe : Int := yoe * 365 + yoe / 4 - yoe / 100 + (doy : Int)
  era * 146097 + doe - 719468

/-- Parse a `HH:MM` UTC-offset magnitude to seconds. -/
def parseOffAux (cs : List Char) : Option Int :=
  match cs with
  | [h1, h2, ':', m1, m2] => do
    let hh ← digitsToNat [h1, h2]
    let mm ← digitsToNat [m1, m2]
    if hh ≤ 23 ∧ mm ≤ 59 then some ((hh * 3600 + mm * 60 : Nat) : Int) else none
  | _ => none

/-- Parse a `+HH:MM` / `-HH:MM` UTC offset to signed seconds. -/
def parseOffset (cs : List Char) : Option Int :=
  match cs with
  | '+' :: rest => parseOffAux rest
  | '-' :: rest => (parseOffAux rest).map (fun n => -n)
  | _ => none

/-- Parse `HH:MM:SS` with an optional fractional part (discarded); returns
the second-of-day and the unconsumed remainder (a possible offset). -/
def parseTime (cs : List Char) : Option (Nat × List Char) :=
  match cs with
  | h1 :: h2 :: ':' :: m1 :: m2 :: ':' :: s1 :: s2 :: rest => do
    let hh ← digitsToNat [h1, h2]
    let mm ← digitsToNat [m1, m2]
    let ss ← digitsToNat [s1, s2]
    if hh ≤ 23 ∧ mm ≤ 59 ∧ ss ≤ 59 then
      match rest with
      | '.' :: fs =>
        if (fs.takeWhile (·.isDigit)) = ([] : List Char) then none
        else some (hh * 3600 + mm * 60 + ss, fs.dropWhile (·.isDigit))
      | _ => some (hh * 3600 + mm * 60 + ss, rest)
    else none
  | _ => none

/-- Model of `datetime.fromisoformat(s).astimezone(timezone.utc)` as UTC
epoch seconds; `none` models the constructor raising `ValueError`. -/
def isoToEpoch (localOff : Int) (s : String) : Option Int :=
  match s.toList with
  | y1 :: y2 :: y3 :: y4 :: '-' :: mo1 :: mo2 :: '-' :: d1 :: d2 :: rest => do
    let y ← digitsToNat [y1, y2, y3, y4]
    let mo ← digitsToNat [mo1, mo2]
    let d ← digitsToNat [d1, d2]
    if 1 ≤ mo ∧ mo ≤ 12 ∧ 1 ≤ d ∧ d ≤ daysInMonth y mo then
      match rest with
      | [] => some (daysFromCivil y mo d * 86400 - localOff)
      | _sep :: timecs => do
        let (secs, rest2) ← parseTime timecs
        let off ← match rest2 with
          | [] => some localOff
          | cs => parseOffset cs
        some (daysFromCivil y mo d * 86400 + (secs : Int) - off)
    else none
  | _ => none

/-- Model of Python `str(timedelta(seconds=n))` for a nonnegative number of
seconds. -/
def str_timedelta (nInt : Int) : String :=
  let n := nInt.toNat
  let days := n / 86400
  let rem := n % 86400
  let h := rem / 3600
  let m := (rem % 3600) / 60
  let s := rem % 60
  let two : Nat → String := fun x => if x < 10 then "0" ++ toString x else toString x
  let hms := toString h ++ ":" ++ two m ++ ":" ++ two s
  if days = 0 then hms
  else if days = 1 then "1 day, " ++ hms
  else toString days ++ " days, " ++ hms

/-- Python `s.replace(c, replacement)` for a one-character pattern: every
occurrence of `c` is replaced. -/
def replaceChar (s : String) (c : Char) (replacement : String) : String :=
  String.mk ((s.toList.map (fun x => if x = c then replacement.toList else [x])).flatten)

/-- `time_until` from cli.py (lines 60-70). The whole body runs inside
`try ... except Exception: return "N/A"`, so the translation is total: a
parse failure -- the only possible exception -- yields `"N/A"`. -/
def time_until (localOff : Int) (now : Int) (expiration : String) : String :=
  match isoToEpoch localOff (replaceChar expiration 'Z' "+00:00") with
  | none => "N/A"
  | some t =>
    if t - now ≤ 0 then "[bold red]Expiré[/bold red]"
    else str_timedelta (t - now)

/-! ### JSON values and Python dynamic primitives -/

/-- A parsed JSON document (`response.json()`); numbers are modelled as
exact rationals. -/
inductive JsonVal where
  | null
  | bool (b : Bool)
  | num (q : ℚ)
  | str (s : String)
  | arr (items : List JsonVal)
  | obj (fields : List (String × JsonVal))

/-- Python exception classes raised by the dynamic operations the dashboard
performs on a snapshot. -/
inductive PyError where
  | attributeError (msg : String)
  | typeError (msg : String)
  | keyError (msg : String)
  | indexError (msg : String)
  deriving DecidableEq, Repr

/-- Python truthiness of a JSON value. -/
def JsonVal.truthy : JsonVal → Bool
  | .null => false
  | .bool b => b
  | .num q => q != 0
  | .str s => s != ""
  | .arr l => !l.isEmpty
  | .obj l => !l.isEmpty

/-- `v.get(k, default)`: defined on dicts, raises `AttributeError` on every
other JSON value. -/
def pyGet (v : JsonVal) (k : String) (default : JsonVal) : Except PyError JsonVal :=
  match v with
  | .obj fields =>
    match fields.lookup k with
    | some x => .ok x
    | none => .ok default
  | _ => .error (.attributeError k)

/-- `v[k]` for a string key. -/
def pySubscript (v : JsonVal) (k : String) : Except PyError JsonVal :=
  match v with
  | .obj fields =>
    match fields.lookup k with
    | some x => .ok x
    | none => .error (.keyError k)
  | .arr _ => .error (.typeError "list indices must be integers")
  | .str _ => .error (.typeError "string indices must be integers")
  | _ => .error (.typeError "object is not subscriptable")

/-- `v[i]` for a nonnegative integer index. -/
def pyIndexNat (v : JsonVal) (i : Nat) : Except PyError JsonVal :=
  match v with
  | .arr l =>
    match l.get? i with
    | some x => .ok x
    | none => .error (.indexError "list index out of range")
  | .str s =>
    match s.toList.get? i with
    | some c => .ok (.str (String.singleton c))
    | none => .error (.indexError "string index out of range")
  | .obj _ => .error (.keyError (toString i))
  | _ => .error (.typeError "object is not subscriptable")

/-- `for x in v`: lists yield elements, dicts their keys, strings their
characters; other values raise `TypeError`. -/
def pyIter : JsonVal → Except PyError (List JsonVal)
  | .arr l => .ok l
  | .obj l => .ok (l.map (fun p => .str p.1))
  | .str s => .ok (s.toList.map (fun c => .str (String.singleton c)))
  | _ => .error (.typeError "object is not iterable")

/-- Coercion performed by the `f` format spec: numbers and bools (Python
bools are ints) succeed, everything else raises `TypeError`. -/
def pyToFloat : JsonVal → Except PyError ℚ
  | .num q => .ok q
  | .bool b => .ok (if b then 1 else 0)
  | _ => .error (.typeError "unsupported format string passed to str.__format__")

/-- Coercion performed by numeric comparison / arithmetic on a JSON value;
same domain as `pyToFloat` with the TypeError of mixed-type operands. -/
def pyToNum : JsonVal → Except PyError ℚ
  | .num q => .ok q
  | .bool b => .ok (if b then 1 else 0)
  | _ => .error (.typeError "unsupported operand type")

/-- `f-string` piece `{v:.1f}`. -/
def pyFmt1f (v : JsonVal) : Except PyError String :=
  (pyToFloat v).map fmtOneDec

/-- `str(v)`. Scalars are modelled faithfully; the container and
non-integral-number cases are abbreviated (no dashboard claim exercises
them). -/
def pyStr : JsonVal → String
  | .null => "None"
  | .bool b => if b then "True" else "False"
  | .num q => if q.den = 1 then toString q.num else toString q
  | .str s => s
  | .arr _ => "[...]"
  | .obj _ => "\x7b...\x7d"

/-- `truncate_cmdline` from cli.py (lines 73-75). -/
def truncate_cmdline (cmdline : String) (width : Nat) : String :=
  if cmdline.length ≤ width then cmdline else cmdline.take (width - 1) ++ "…"

/-- `truncate_name` from cli.py (lines 78-80); `maxLen` defaults to 15 at
the call sites that omit it. -/
def truncate_name (name : String) (maxLen : Nat) : String :=
  if name.length ≤ maxLen then name else name.take (maxLen - 1) ++ "…"

/-- `truncate_cmdline` applied to a JSON value: `len()` of a non-string
raises (the string case is the only one the dashboard data carries). -/
def truncate_cmdline_dyn (v : JsonVal) (width : Nat) : Except PyError String :=
  match v with
  | .str s => .ok (truncate_cmdline s width)
  | _ => .error (.typeError "object has no len")

/-- `truncate_name` applied to a JSON value. -/
def truncate_name_dyn (v : JsonVal) (maxLen : Nat) : Except PyError String :=
  match v with
  | .str s => .ok (truncate_name s maxLen)
  | _ => .error (.typeError "object has no len")

/-- `human_readable_size` applied to a raw JSON value: the comparison
`size < 1024` raises `TypeError` on non-numeric input. -/
def human_readable_size_dyn (v : JsonVal) : Except PyError String := do
  let q ← pyToNum v
  pure (human_readable_size q)

/-- `time_until` applied to a raw JSON value: `.replace` on a non-string
raises `AttributeError`, which the `except Exception` clause turns into
`"N/A"`. -/
def time_until_dyn (localOff : Int) (now : Int) (v : JsonVal) : String :=
  match v with
  | .str s => time_until localOff now s
  | _ => "N/A"

/-! ### Display trees and the layout builders (cli.py lines 83-349)

The rich renderables the builders construct are modelled structurally:
`strGrid` is a `Table.grid` whose cells are markup strings, `table` a
header/rows table, `panel` a `Panel` with optional title, border style and
subtitle, `sideBySide` a one-row two-cell grid of renderables. Sizing-only
arguments (padding, column widths, `expand`, `height`) are not part of the
tree. -/

inductive Display where
  | text (s : String)
  | strGrid (rows : List (List String))
  | table (headers : List String) (rows : List (List String))
  | panel (body : Display) (title : Option String) (border : Option String)
      (subtitle : Option String)
  | sideBySide (left : Display) (right : Display)
  deriving DecidableEq, Repr

/-- The five regions of the `create_layout` tree that
`build_layout_content` fills (header / summary / processes /
gpu_processes / ollama). -/
structure LayoutContent where
  header : Display
  summary : Display
  processes : Display
  gpu_processes : Display
  ollama : Display
  deriving DecidableEq, Repr

/-- `build_header` (lines 114-117). -/
def build_header : Display :=
  .panel (.text "🖥️ Sys Stats") none (some "blue") none

/-- `build_summary` (lines 120-174). `now_str` models the
`datetime.now().strftime(...)` reading made inside the function, and
`is_paused` the module-global flag it reads under `state_lock`. -/
def build_summary (now_str : String) (is_paused : Bool) (data : JsonVal)
    (interval : Nat) : Except PyError Display := do
  let current_time := "[bold]" ++ now_str ++ "[/bold]"
  let row1 := ["Heure actuelle", current_time]
  let cpuStr ← pyFmt1f (← pyGet data "cpu" (.num 0))
  let cpu_usage := "[bold green]CPU:[/bold green] " ++ cpuStr ++ "%"
  let ramPct ← pyFmt1f (← pyGet (← pyGet data "ram" (.obj [])) "percent" (.num 0))
  let ram_total ← human_readable_size_dyn
    (← pyGet (← pyGet data "ram" (.obj [])) "total" (.num 0))
  let ram_usage := "[bold yellow]RAM:[/bold yellow] " ++ ramPct ++ "% / " ++ ram_total
  let row3 := [cpu_usage, ram_usage]
  let hasGpu ← pyGet data "has_gpu" .null
  let gpuRows ← (do
    if hasGpu.truthy then do
      let gpuV ← pyGet data "gpu" .null
      if gpuV.truthy then do
        let gpu_data ← pyIndexNat (← pySubscript data "gpu") 0
        let gpu_name ← truncate_name_dyn (← pyGet gpu_data "name" (.str "N/A")) 15
        let gpu_loadV ← pyGet gpu_data "load" (.num 0)
        let memory_usedV ← pyGet gpu_data "memoryUsed" (.num 0)
        let memory_percent ← pyToNum (← pyGet gpu_data "memoryPercent" (.num 0))
        let memory_total : ℚ ←
          if memory_percent > 0 then do
            let mu ← pyToNum memory_usedV
            pure (mu / (memory_percent / 100))
          else pure 0
        let memory_used_str ← human_readable_size_dyn memory_usedV
        let memory_total_str := human_readable_size memory_total
        let gpu_title := "[bold blue]GPU:[/bold blue] " ++ gpu_name ++ " ("
          ++ memory_total_str ++ ")\n"
        let gpu_info := "[bold magenta]VRAM:[/bold magenta] " ++ memory_used_str
          ++ " (" ++ fmtOneDec memory_percent ++ "%)"
        let gpu_load ← pyFmt1f gpu_loadV
        let gpu_load_str := "[bold blue]Charge:[/bold blue] " ++ gpu_load ++ "%"
        pure [[gpu_title], [gpu_info, gpu_load_str]]
      else pure []
    else pure [])
  let status := if is_paused then "[bold red]PAUSÉ[/bold red]" else ""
  let rowLast := ["", status]
  pure (.panel (.strGrid ([row1, ["", ""], row3] ++ gpuRows ++ [rowLast]))
    none (some "cyan")
    (some ("Taux de rafraîchissement : " ++ toString interval ++ "s")))

/-- `build_process_table` (lines 177-210): `key` is the literal
`"top_cpu"` / `"top_memory"` selector the callers pass. -/
def build_process_table (processes : JsonVal) (key : String) (title : String) :
    Except PyError Display :=
  if !processes.truthy then
    .ok (.panel (.text ("Aucune donnée pour " ++ title ++ "."))
      (some ("[bold cyan]" ++ title ++ "[/bold cyan]")) (some "cyan") none)
  else do
    let headers :=
      if key = "top_cpu" then ["PID", "Nom", "CPU%", "Cmdline"]
      else if key = "top_memory" then ["PID", "Nom", "Mémoire%", "Cmdline"]
      else []
    let procs ← pyIter processes
    let rows ← procs.mapM (fun proc => do
      let pid := pyStr (← pyGet proc "pid" (.str "N/A"))
      let name ← truncate_name_dyn (← pyGet proc "name" (.str "N/A")) 15
      let cmdline ← truncate_cmdline_dyn (← pyGet proc "cmdline" (.str "")) 20
      if key = "top_cpu" then do
        let cpu ← pyFmt1f (← pyGet proc "cpu_percent" (.num 0))
        pure [pid, name, cpu ++ "%", cmdline]
      else if key = "top_memory" then do
        let mem ← pyFmt1f (← pyGet proc "memory_percent" (.num 0))
        pure [pid, name, mem ++ "%", cmdline]
      else pure [])
    pure (.table headers rows)

/-- `build_processes_panel` (lines 213-230). -/
def build_processes_panel (data : JsonVal) : Except PyError Display := do
  let top_cpu ← pyGet data "top_cpu" (.arr [])
  let top_memory ← pyGet data "top_memory" (.arr [])
  let table_cpu ← build_process_table top_cpu "top_cpu" "CPU"
  let table_mem ← build_process_table top_memory "top_memory" "Mémoire"
  pure (.sideBySide
    (.panel table_cpu (some "[bold cyan]Top CPU[/bold cyan]") (some "cyan") none)
    (.panel table_mem (some "[bold cyan]Top Mémoire[/bold cyan]") (some "cyan") none))

/-- `build_gpu_processes_panel` (lines 233-262). -/
def build_gpu_processes_panel (data : JsonVal) : Except PyError Display := do
  let processes ← pyGet data "top_gpu_processes" (.arr [])
  if !processes.truthy then
    pure (.panel (.text "Aucun processus GPU.")
      (some "[bold cyan]Processus GPU[/bold cyan]") (some "cyan") none)
  else do
    let procs ← pyIter processes
    let rows ← procs.mapM (fun proc => do
      let pid := pyStr (← pyGet proc "pid" (.str "N/A"))
      let name ← truncate_name_dyn (← pyGet proc "name" (.str "N/A")) 15
      let memory_used ← human_readable_size_dyn (← pyGet proc "memory_used" (.num 0))
      let cmdline ← truncate_cmdline_dyn (← pyGet proc "cmdline" (.str "")) 20
      pure [pid, name, memory_used, cmdline])
    pure (.panel (.table ["PID", "Nom", "Mémoire Utilisée", "Cmdline"] rows)
      (some "[bold cyan]Processus GPU[/bold cyan]") (some "cyan") none)

/-- `build_ollama_panel` (lines 265-303). `nowEpoch`/`localOff` model the
`datetime.now(timezone.utc)` reading made inside `time_until`. -/
def build_ollama_panel (nowEpoch localOff : Int) (data : JsonVal) :
    Except PyError Display := do
  let models ← pyGet (← pyGet data "ollama_processes" (.obj [])) "models" (.arr [])
  if !models.truthy then
    pure (.panel (.text "Aucun modèle Ollama.")
      (some "[bold cyan]Statistiques Ollama[/bold cyan]") (some "cyan") none)
  else do
    let ms ← pyIter models
    let rows ← ms.mapM (fun model => do
      let model_name ← truncate_name_dyn (← pyGet model "name" (.str "N/A")) 15
      let size_total ← human_readable_size_dyn (← pyGet model "size" (.num 0))
      let size_vram ← human_readable_size_dyn (← pyGet model "size_vram" (.num 0))
      -- conditional expression: the condition `model.get('size', 1) > 0`
      -- is evaluated first, then (if true) the ratio
      let sizeCond ← pyToNum (← pyGet model "size" (.num 1))
      let gpu_loaded_ratio : ℚ ←
        if sizeCond > 0 then do
          let vv ← pyToNum (← pyGet model "size_vram" (.num 0))
          let sv ← pyToNum (← pyGet model "size" (.num 1))
          pure (vv / sv * 100)
        else pure 0
      let gpu_loaded_str := fmt0Dec gpu_loaded_ratio ++ "%"
      let expiration := time_until_dyn localOff nowEpoch
        (← pyGet model "expires_at" (.str ""))
      pure [model_name, size_total, size_vram, gpu_loaded_str, expiration])
    pure (.panel (.table ["Modèle", "Taille", "VRAM", "GPU%", "Expire"] rows)
      (some "[bold cyan]Statistiques Ollama[/bold cyan]") (some "cyan") none)

/-- `build_full_screen_help` (lines 328-349): a constant panel. -/
def build_full_screen_help : Display :=
  .panel (.text ("\n[bold yellow]Raccourcis Clavier :[/bold yellow]\n\n"
    ++ "[bold green]q[/bold green] - Quitter\n"
    ++ "[bold green]r[/bold green] - Rafraîchir\n"
    ++ "[bold green]h[/bold green] - Afficher/Masquer l\x27aide\n"
    ++ "[bold green]p[/bold green] - Pause/Reprendre\n"
    ++ "[bold green]-[/bold green] - Diminuer l\x27intervalle\n"
    ++ "[bold green]+[/bold green] - Augmenter l\x27intervalle\n\n"
    ++ "Appuyez de nouveau sur [bold green]h[/bold green] pour revenir.\n"))
    (some "[bold cyan]Aide[/bold cyan]") (some "green") none

/-- Clock readings made inside the layout builders: the `datetime.now()`
wall-clock string rendered by `build_summary` and the UTC epoch reading
(plus local offset) used by `time_until`. -/
structure RenderEnv where
  now_str : String
  nowEpoch : Int
  localOff : Int

/-- `build_layout_content` (lines 306-326). The `terminal_width` argument
of the source is accepted by the Python function but never used in its
body, so it does not appear here. The region updates run in source order;
the first raising builder aborts the whole update, exactly as the
uncaught Python exception would. -/
def build_layout_content (env : RenderEnv) (is_paused : Bool) (data : JsonVal)
    (interval : Nat) : Except PyError LayoutContent := do
  let summary ← build_summary env.now_str is_paused data interval
  let processes ← build_processes_panel data
  let gpu_processes ← build_gpu_processes_panel data
  let ollama ← build_ollama_panel env.nowEpoch env.localOff data
  pure { header := build_header, summary := summary, processes := processes,
         gpu_processes := gpu_processes, ollama := ollama }

/-! ### The fetch, the shared state and one cycle of the render loop -/

/-- Outcome classes of one `requests.get` + `raise_for_status` + `.json()`
call: network failure, non-success HTTP status, unparseable body, or a
parsed document. -/
inductive FetchErrorKind where
  | network
  | http (status : Nat)
  | parse
  deriving DecidableEq, Repr

/-- What the remote endpoint does for one fetch. -/
inductive FetchResult where
  | ok (body : JsonVal)
  | err (kind : FetchErrorKind)

/-- `fetch_stats` (cli.py lines 40-48): returns the parsed snapshot, or --
when the request raised a `RequestException` -- `none` together with the
error it printed to the console (the second component models that surfaced
error message). No exception escapes the function. -/
def fetch_stats : FetchResult → Option JsonVal × Option FetchErrorKind
  | .ok body => (some body, none)
  | .err k => (none, some k)

/-- The renderable currently mounted in the `Live` display: the initial
empty layout, the full-screen help panel, or filled layout content. -/
inductive LayoutView where
  | initial
  | helpShown
  | content (c : LayoutContent)

/-- The module-level mutable state of cli.py (lines 24-37) plus the mounted
layout: `is_paused`, `show_help_flag`, `refresh_interval`, `latest_stats`,
the two `threading.Event`s, and the `Live` layout. -/
structure LoopState where
  is_paused : Bool
  show_help_flag : Bool
  refresh_interval : Nat
  latest_stats : Option JsonVal
  rebuild_event : Bool
  exit_event : Bool
  view : LayoutView

/-- The environment one loop iteration draws on: the endpoint's behaviour
for the fetch this cycle would issue, and the clock readings of the
renders. -/
structure CycleEnv where
  fetch : FetchResult
  render : RenderEnv

/-- Result of one iteration of the `while` body: the state when the
iteration ends (or when an exception escapes it), whether a fetch was
issued, and -- since `main` wraps nothing in `try` -- the uncaught Python
exception, if the layout-building code raised one. -/
structure CycleRes where
  state : LoopState
  fetched : Bool
  err : Option PyError

/-- Truthiness of `latest_stats` (`if latest_stats:`): `None` is falsy,
otherwise Python truthiness of the stored document. -/
def optTruthy : Option JsonVal → Bool
  | none => false
  | some v => v.truthy

/-- The rebuild check at the end of each iteration (cli.py lines 424-432):
if `rebuild_layout_event` is set, re-render (help panel, or the latest
snapshot when one is held and truthy -- the paused and non-paused arms of
the source differ only in an unused terminal-size fallback) and then clear
the event. A raise inside the re-render escapes before the `clear()`
executes. -/
def rebuild_check (env : CycleEnv) (help_flag paused : Bool) (interval : Nat)
    (fetched : Bool) (st : LoopState) : CycleRes :=
  if st.rebuild_event then
    if help_flag then
      { state := { st with view := .helpShown, rebuild_event := false },
        fetched := fetched, err := none }
    else
      match st.latest_stats with
      | some d =>
        if d.truthy then
          match build_layout_content env.render paused d interval with
          | .ok c =>
            { state := { st with view := .content c, rebuild_event := false },
              fetched := fetched, err := none }
          | .error e => { state := st, fetched := fetched, err := some e }
        else
          { state := { st with rebuild_event := false }, fetched := fetched,
            err := none }
      | none =>
        { state := { st with rebuild_event := false }, fetched := fetched,
          err := none }
  else { state := st, fetched := fetched, err := none }

/-- One iteration of the render loop body (cli.py lines 398-432): read the
state tuple under the lock, then help overlay / fetch-and-render /
re-render-stale, then the rebuild check. A raise inside any
`build_layout_content` call escapes the iteration (there is no `try` in
`main`), carrying the state the globals had at that point. -/
def cycleBody (env : CycleEnv) (st : LoopState) : CycleRes :=
  -- the locals current_interval / paused / help_flag read under `state_lock`
  -- at lines 399-402 are the corresponding fields of `st`; a single-threaded
  -- iteration is modelled, so they are used inline
  if st.show_help_flag then
    rebuild_check env st.show_help_flag st.is_paused st.refresh_interval false
      { st with view := .helpShown }
  else if !st.is_paused then
    match fetch_stats env.fetch with
    | (some stats, _) =>
      if stats.truthy then
        match build_layout_content env.render st.is_paused stats st.refresh_interval with
        | .ok c =>
          rebuild_check env st.show_help_flag st.is_paused st.refresh_interval true
            { st with latest_stats := some stats, view := .content c }
        | .error e =>
          { state := { st with latest_stats := some stats }, fetched := true,
            err := some e }
      else
        rebuild_check env st.show_help_flag st.is_paused st.refresh_interval true st
    | (none, _) =>
      rebuild_check env st.show_help_flag st.is_paused st.refresh_interval true st
  else
    match st.latest_stats with
    | some d =>
      if d.truthy then
        match build_layout_content env.render st.is_paused d st.refresh_interval with
        | .ok c =>
          rebuild_check env st.show_help_flag st.is_paused st.refresh_interval false
            { st with view := .content c }
        | .error e => { state := st, fetched := false, err := some e }
      else
        rebuild_check env st.show_help_flag st.is_paused st.refresh_interval false st
    | none =>
      rebuild_check env st.show_help_flag st.is_paused st.refresh_interval false st

/-! ### The keyboard listener -/

/-- Python `str.lower()`, character by character (the keys the listener
compares against are ASCII). -/
def pyLower (s : String) : String :=
  String.mk (s.toList.map Char.toLower)

/-- The per-keypress body of `keyboard_listener` (cli.py lines 357-376):
`readchar.readkey()` yields a string; `q`/`r`/`h`/`p` are matched
case-insensitively, `-`/`+` exactly; every other key is ignored. -/
def handle_key (st : LoopState) (key : String) : LoopState :=
  if pyLower key = "q" then { st with exit_event := true }
  else if pyLower key = "r" then { st with rebuild_event := true }
  else if pyLower key = "h" then
    { st with show_help_flag := !st.show_help_flag, rebuild_event := true }
  else if pyLower key = "p" then
    { st with is_paused := !st.is_paused, rebuild_event := true }
  else if key = "-" then
    if st.refresh_interval > 1 then
      { st with refresh_interval := st.refresh_interval - 1, rebuild_event := true }
    else st
  else if key = "+" then
    if st.refresh_interval < 60 then
      { st with refresh_interval := st.refresh_interval + 1, rebuild_event := true }
    else st
  else st

/-! ### The interruptible wait (cli.py lines 434-440)

Time is discretised into the 100ms polling quantum of `time.sleep(0.1)`:
one configured second is 10 ticks. `ev t` says whether
`exit_event.is_set() or rebuild_layout_event.is_set()` holds at the check
performed `t` ticks after the wait started. The wait loop runs while the
elapsed ticks are below `10 * interval`, checking the events before each
sleep; `waitPhase` returns the number of ticks elapsed when the wait
ends. -/

def waitAux : Nat → Nat → (Nat → Bool) → Nat
  | 0, t, _ => t
  | fuel + 1, t, ev => if ev t then t else waitAux fuel (t + 1) ev

def waitPhase (interval : Nat) (ev : Nat → Bool) : Nat :=
  waitAux (10 * interval) 0 ev

/-- Whether an `Except` computation returned normally. -/
def isOkE {ε α : Type} : Except ε α → Bool
  | .ok _ => true
  | .error _ => false

/-! ### Helper lemmas -/

theorem rc_latest (env : CycleEnv) (h p : Bool) (i : Nat) (f : Bool) (st : LoopState) :
    (rebuild_check env h p i f st).state.latest_stats = st.latest_stats := by
  unfold rebuild_check
  repeat first | rfl | split

theorem rc_paused (env : CycleEnv) (h p : Bool) (i : Nat) (f : Bool) (st : LoopState) :
    (rebuild_check env h p i f st).state.is_paused = st.is_paused := by
  unfold rebuild_check
  repeat first | rfl | split

theorem rc_help (env : CycleEnv) (h p : Bool) (i : Nat) (f : Bool) (st : LoopState) :
    (rebuild_check env h p i f st).state.show_help_flag = st.show_help_flag := by
  unfold rebuild_check
  repeat first | rfl | split

theorem rc_interval (env : CycleEnv) (h p : Bool) (i : Nat) (f : Bool) (st : LoopState) :
    (rebuild_check env h p i f st).state.refresh_interval = st.refresh_interval := by
  unfold rebuild_check
  repeat first | rfl | split

theorem rc_exit (env : CycleEnv) (h p : Bool) (i : Nat) (f : Bool) (st : LoopState) :
    (rebuild_check env h p i f st).state.exit_event = st.exit_event := by
  unfold rebuild_check
  repeat first | rfl | split

theorem rc_fetched (env : CycleEnv) (h p : Bool) (i : Nat) (f : Bool) (st : LoopState) :
    (rebuild_check env h p i f st).fetched = f := by
  unfold rebuild_check
  repeat first | rfl | split

theorem handle_key_interval_mem (st : LoopState) (key : String)
    (h1 : 1 ≤ st.refresh_interval) (h2 : st.refresh_interval ≤ 60) :
    1 ≤ (handle_key st key).refresh_interval
    ∧ (handle_key st key).refresh_interval ≤ 60 := by
  unfold handle_key
  split_ifs <;> (try dsimp only) <;> omega

theorem cycle_paused_eq (env : CycleEnv) (st : LoopState) :
    (cycleBody env st).state.is_paused = st.is_paused := by
  unfold cycleBody
  repeat first | rfl | rw [rc_paused] | split

theorem cycle_help_eq (env : CycleEnv) (st : LoopState) :
    (cycleBody env st).state.show_help_flag = st.show_help_flag := by
  unfold cycleBody
  repeat first | rfl | rw [rc_help] | split

theorem cycle_interval_eq (env : CycleEnv) (st : LoopState) :
    (cycleBody env st).state.refresh_interval = st.refresh_interval := by
  unfold cycleBody
  repeat first | rfl | rw [rc_interval] | split

theorem cycle_exit_eq (env : CycleEnv) (st : LoopState) :
    (cycleBody env st).state.exit_event = st.exit_event := by
  unfold cycleBody
  repeat first | rfl | rw [rc_exit] | split

theorem waitAux_le_of_ev (k : Nat) (ev : Nat → Bool)
    (h : ∀ u, k ≤ u → ev u = true) :
    ∀ (fuel t : Nat), waitAux fuel t ev ≤ max t k := by
  intro fuel
  induction fuel with
  | zero => intro t; exact le_max_left t k
  | succ f ih =>
    intro t
    unfold waitAux
    by_cases he : ev t = true
    · rw [if_pos he]
      exact le_max_left t k
    · have htk : t < k := by
        by_contra hc
        exact he (h t (by omega))
      rw [if_neg he]
      calc waitAux f (t + 1) ev ≤ max (t + 1) k := ih (t + 1)
        _ ≤ max t k := by omega

theorem waitAux_full (ev : Nat → Bool) (hev : ∀ t, ev t = false) :
    ∀ (fuel t : Nat), waitAux fuel t ev = t + fuel := by
  intro fuel
  induction fuel with
  | zero => intro t; rfl
  | succ f ih =>
    intro t
    unfold waitAux
    simp [hev t, ih (t + 1)]
    omega

/-! ### Claims -/

/-- Claim C7: for every starting value of `paused` (indeed for every
starting dashboard state), processing two consecutive `p` key presses
through the keyboard listener restores `is_paused` to its original value:
pause toggling (cli.py lines 366-368, `is_paused = not is_paused`) is an
involution on the paused flag. -/
theorem pause_toggle_involution (st : LoopState) :
    (handle_key (handle_key st "p") "p").is_paused = st.is_paused := by
  have hp : ∀ s : LoopState,
      handle_key s "p" = { s with is_paused := !s.is_paused, rebuild_event := true } :=
    fun s => rfl
  rw [hp, hp]
  simp

/-- Claim C3: starting from any `refresh_interval` in [1,60], every finite
sequence of key presses (in particular any sequence of `+`/`-` presses)
keeps the interval within [1,60]; moreover a single `-` press acts as
clamped decrement (`max 1 (i - 1)`: a `-` at 1 is silently ignored) and a
single `+` press acts as clamped increment (`min 60 (i + 1)`: a `+` at 60
is silently ignored), per cli.py lines 369-376. -/
theorem interval_stays_clamped :
    (∀ (st : LoopState) (keys : List String),
      1 ≤ st.refresh_interval → st.refresh_interval ≤ 60 →
        1 ≤ (keys.foldl handle_key st).refresh_interval
        ∧ (keys.foldl handle_key st).refresh_interval ≤ 60)
    ∧ (∀ st : LoopState, 1 ≤ st.refresh_interval → st.refresh_interval ≤ 60 →
        (handle_key st "-").refresh_interval = max 1 (st.refresh_interval - 1)
        ∧ (handle_key st "+").refresh_interval = min 60 (st.refresh_interval + 1)) := by
  constructor
  · intro st keys h1 h2
    induction keys generalizing st with
    | nil => exact ⟨h1, h2⟩
    | cons k ks ih =>
      simp only [List.foldl_cons]
      exact ih _ (handle_key_interval_mem st k h1 h2).1
        (handle_key_interval_mem st k h1 h2).2
  · intro st h1 h2
    have hminus : handle_key st "-" =
        if st.refresh_interval > 1 then
          { st with refresh_interval := st.refresh_interval - 1, rebuild_event := true }
        else st := rfl
    have hplus : handle_key st "+" =
        if st.refresh_interval < 60 then
          { st with refresh_interval := st.refresh_interval + 1, rebuild_event := true }
        else st := rfl
    constructor
    · rw [hminus]
      split_ifs <;> (try dsimp only) <;> omega
    · rw [hplus]
      split_ifs <;> (try dsimp only) <;> omega

/-- Witness for C3 at a concrete state and key sequence. -/
theorem interval_stays_clamped_witness :
    1 ≤ ((["+", "-", "-"].foldl handle_key
        ⟨false, false, 5, none, false, false, .initial⟩).refresh_interval)
    ∧ ((["+", "-", "-"].foldl handle_key
        ⟨false, false, 5, none, false, false, .initial⟩).refresh_interval) ≤ 60 :=
  interval_stays_clamped.1 ⟨false, false, 5, none, false, false, .initial⟩
    ["+", "-", "-"] (by decide) (by decide)

/-- Claim C4: in every cycle executed while `paused` is true, no fetch is
issued and `latest_stats` is unchanged when the cycle ends (the cycle only
re-renders from the existing snapshot); together with the fetch branch
being guarded by `not paused` (cli.py lines 409-421), the stored snapshot
is replaced only during non-paused cycles. This holds whether or not the
help overlay is up and even if the re-render raises. -/
theorem paused_cycle_no_fetch (env : CycleEnv) (st : LoopState)
    (hp : st.is_paused = true) :
    (cycleBody env st).fetched = false
    ∧ (cycleBody env st).state.latest_stats = st.latest_stats := by
  unfold cycleBody
  rw [hp]
  by_cases hh : st.show_help_flag = true
  · rw [if_pos hh]
    exact ⟨rc_fetched .., rc_latest ..⟩
  · rw [if_neg hh, if_neg (by decide : ¬((!true) = true))]
    cases hl : st.latest_stats with
    | none =>
      dsimp only
      exact ⟨rc_fetched .., by rw [rc_latest]; exact hl⟩
    | some d =>
      dsimp only
      by_cases hd : d.truthy = true
      · rw [if_pos hd]
        cases hb : build_layout_content env.render true d st.refresh_interval with
        | ok c =>
          dsimp only
          exact ⟨rc_fetched .., by rw [rc_latest]⟩
        | error e =>
          dsimp only
          exact ⟨rfl, hl⟩
      · rw [if_neg hd]
        exact ⟨rc_fetched .., by rw [rc_latest]; exact hl⟩

/-- Witness for C4: a paused cycle against a live endpoint keeps the held
snapshot and issues no fetch. -/
theorem paused_cycle_no_fetch_witness :
    (cycleBody ⟨.ok (.obj [("cpu", .num 50)]), ⟨"10:00:00", 0, 0⟩⟩
        ⟨true, false, 5, some (.obj [("cpu", .num 25)]), false, false, .initial⟩).fetched = false
    ∧ (cycleBody ⟨.ok (.obj [("cpu", .num 50)]), ⟨"10:00:00", 0, 0⟩⟩
        ⟨true, false, 5, some (.obj [("cpu", .num 25)]), false, false, .initial⟩).state.latest_stats
      = some (.obj [("cpu", .num 25)]) :=
  paused_cycle_no_fetch ⟨.ok (.obj [("cpu", .num 50)]), ⟨"10:00:00", 0, 0⟩⟩
    ⟨true, false, 5, some (.obj [("cpu", .num 25)]), false, false, .initial⟩ rfl

/-- Claim C2: a failed fetch -- network error, non-success HTTP status, or
unparseable body -- is surfaced by `fetch_stats` as a returned `none` plus
the error message it prints (modelling the spec's `lastError`), rather
than being thrown past the fetch call; and any cycle whose fetch fails
leaves `latest_stats` exactly as it was (`latest_stats` is assigned only
under `if stats:` at cli.py lines 412-414). -/
theorem failed_fetch_preserves_latest (k : FetchErrorKind) :
    fetch_stats (.err k) = (none, some k)
    ∧ ∀ (env : CycleEnv) (st : LoopState), env.fetch = .err k →
        (cycleBody env st).state.latest_stats = st.latest_stats := by
  refine ⟨rfl, ?_⟩
  intro env st hf
  unfold cycleBody
  rw [hf]
  by_cases hh : st.show_help_flag = true
  · rw [if_pos hh, rc_latest]
  · rw [if_neg hh]
    by_cases hp : st.is_paused = true
    · rw [if_neg (by rw [hp]; decide)]
      cases hl : st.latest_stats with
      | none =>
        dsimp only
        rw [rc_latest]
        exact hl
      | some d =>
        dsimp only
        by_cases hd : d.truthy = true
        · rw [if_pos hd]
          cases hb : build_layout_content env.render st.is_paused d st.refresh_interval with
          | ok c =>
            dsimp only
            rw [rc_latest]
          | error e =>
            dsimp only
            exact hl
        · rw [if_neg hd, rc_latest]
          exact hl
    · have hp' : st.is_paused = false := by
        revert hp; cases st.is_paused <;> simp
      rw [if_pos (by rw [hp']; decide)]
      simp only [fetch_stats]
      rw [rc_latest]

/-- Witness for C2: snapshot A survives a simulated HTTP 500. -/
theorem failed_fetch_preserves_latest_witness :
    (cycleBody ⟨.err (.http 500), ⟨"10:00:00", 0, 0⟩⟩
        ⟨false, false, 5, some (.obj [("cpu", .num 25)]), false, false, .initial⟩).state.latest_stats
      = some (.obj [("cpu", .num 25)]) :=
  (failed_fetch_preserves_latest (.http 500)).2
    ⟨.err (.http 500), ⟨"10:00:00", 0, 0⟩⟩
    ⟨false, false, 5, some (.obj [("cpu", .num 25)]), false, false, .initial⟩ rfl

/-- Claim C1, amended. Failures raised while *fetching* (network error,
non-success HTTP status, unparseable body) are caught inside `fetch_stats`
and the loop continues with the previous frame and snapshot; the loop's
exit flag is never raised by a cycle, and the keyboard listener raises it
only for a `q` press (so the loop exits only via an operator-initiated
`q`, after which `main` prints a farewell and returns, exit code 0). The
original claim's further assertion -- that failures inside the
layout-building code are also caught at the loop boundary -- is false of
the code (see the counterexample): `main` wraps nothing in `try`. -/
theorem fetch_faults_recovered_render_faults_uncaught :
    (∀ (env : CycleEnv) (st : LoopState) (k : FetchErrorKind),
        env.fetch = .err k → st.show_help_flag = false → st.is_paused = false →
        st.rebuild_event = false →
          (cycleBody env st).err = none
          ∧ (cycleBody env st).state.latest_stats = st.latest_stats
          ∧ (cycleBody env st).state.view = st.view
          ∧ (cycleBody env st).fetched = true)
    ∧ (∀ (env : CycleEnv) (st : LoopState),
        (cycleBody env st).state.exit_event = st.exit_event)
    ∧ (∀ (st : LoopState) (key : String),
        (handle_key st key).exit_event = true →
          st.exit_event = true ∨ pyLower key = "q") := by
  refine ⟨?_, fun env st => cycle_exit_eq env st, ?_⟩
  · intro env st k hf hh hp hr
    have hcb : cycleBody env st = { state := st, fetched := true, err := none } := by
      unfold cycleBody
      rw [hh, hp, hf]
      rw [if_neg (by decide : ¬(false = true)), if_pos (by decide : ((!false) = true))]
      simp only [fetch_stats]
      unfold rebuild_check
      rw [hr]
      rw [if_neg (by decide : ¬(false = true))]
    rw [hcb]
    exact ⟨rfl, rfl, rfl, rfl⟩
  · intro st key hk
    unfold handle_key at hk
    by_cases h1 : pyLower key = "q"
    · exact Or.inr h1
    · rw [if_neg h1] at hk
      split_ifs at hk <;> exact Or.inl hk

/-- Witness for the amended C1 at a concrete failing endpoint. -/
theorem fetch_faults_recovered_witness :
    (cycleBody ⟨.err .network, ⟨"10:00:00", 0, 0⟩⟩
        ⟨false, false, 5, some (.obj [("cpu", .num 25)]), false, false, .initial⟩).err = none
    ∧ (cycleBody ⟨.err .network, ⟨"10:00:00", 0, 0⟩⟩
        ⟨false, false, 5, some (.obj [("cpu", .num 25)]), false, false, .initial⟩).state.latest_stats
      = some (.obj [("cpu", .num 25)]) :=
  ⟨(fetch_faults_recovered_render_faults_uncaught.1
      ⟨.err .network, ⟨"10:00:00", 0, 0⟩⟩
      ⟨false, false, 5, some (.obj [("cpu", .num 25)]), false, false, .initial⟩
      .network rfl rfl rfl rfl).1,
   (fetch_faults_recovered_render_faults_uncaught.1
      ⟨.err .network, ⟨"10:00:00", 0, 0⟩⟩
      ⟨false, false, 5, some (.obj [("cpu", .num 25)]), false, false, .initial⟩
      .network rfl rfl rfl rfl).2.1⟩

/-- Counterexample to C1 as stated: an endpoint that answers HTTP 200 with
the well-formed JSON document `{"cpu": "high"}` makes `build_summary`
raise a `TypeError` (a string formatted with `:.1f`); `main` has no
`try`/`except` around the loop body (cli.py lines 397-441), so the
exception escapes the cycle uncaught -- the dashboard process terminates
with a traceback (non-zero exit) on a transient formatting fault instead
of continuing with the previous frame. -/
theorem render_fault_crashes_loop :
    (cycleBody ⟨.ok (.obj [("cpu", .str "high")]), ⟨"01-01-2020 10:00:00", 0, 0⟩⟩
        ⟨false, false, 5, none, false, false, .initial⟩).err
      = some (.typeError "unsupported format string passed to str.__format__") := by
  rfl

theorem rebuild_check_fires (env : CycleEnv) (p : Bool) (i : Nat) (f : Bool)
    (st : LoopState) (b : JsonVal) (c : LayoutContent)
    (hr : st.rebuild_event = true) (hl : st.latest_stats = some b)
    (ht : b.truthy = true)
    (hc : build_layout_content env.render p b i = .ok c) :
    rebuild_check env false p i f st =
      { state := { st with view := .content c, rebuild_event := false },
        fetched := f, err := none } := by
  unfold rebuild_check
  rw [hr, if_pos rfl, if_neg (by decide : ¬(false = true)), hl]
  dsimp only
  rw [if_pos ht, hc]

/-- Claim C5: when `r` raises the rebuild event during a wait,
(i) the remainder of the up-to-`refresh_interval` wait is discarded (the
wait returns at the first poll that observes the event, no later than tick
`k`), (ii) the next cycle -- here a non-paused one holding a truthy fetched
snapshot that renders -- issues a fetch, (iii) that cycle consumes the
rebuild flag exactly once (`rebuild_event` is `false` when it ends),
completing normally, and (iv) the wait after it restarts from zero,
running the full `10 * refresh_interval` ticks when no further event
arrives. -/
theorem rebuild_restarts_cycle_immediately
    (interval k : Nat) (ev : Nat → Bool) (env : CycleEnv) (st : LoopState)
    (b : JsonVal)
    (_hk : k < 10 * interval) (hev : ∀ t, k ≤ t → ev t = true)
    (hr : st.rebuild_event = true) (hh : st.show_help_flag = false)
    (hp : st.is_paused = false) (hf : env.fetch = .ok b) (ht : b.truthy = true)
    (hok : isOkE (build_layout_content env.render false b st.refresh_interval)
      = true) :
    waitPhase interval ev ≤ k
    ∧ (cycleBody env st).fetched = true
    ∧ (cycleBody env st).state.rebuild_event = false
    ∧ (cycleBody env st).err = none
    ∧ waitPhase st.refresh_interval (fun _ => false) = 10 * st.refresh_interval := by
  obtain ⟨c, hc⟩ : ∃ c, build_layout_content env.render false b st.refresh_interval
      = .ok c := by
    revert hok
    cases build_layout_content env.render false b st.refresh_interval with
    | ok c => exact fun _ => ⟨c, rfl⟩
    | error e => intro h; simp [isOkE] at h
  have h1 : waitPhase interval ev ≤ k := by
    have := waitAux_le_of_ev k ev hev (10 * interval) 0
    simpa [waitPhase, Nat.zero_max] using this
  have hcb : cycleBody env st =
      { state := { st with latest_stats := some b, rebuild_event := false, view := .content c }, fetched := true, err := none } := by
    unfold cycleBody
    rw [hh, hp, hf]
    rw [if_neg (by decide : ¬(false = true)), if_pos (by decide : ((!false) = true))]
    simp only [fetch_stats]
    rw [if_pos ht, hc]
    dsimp only
    exact rebuild_check_fires env false st.refresh_interval true _ b c hr rfl ht hc
  have h5 : waitPhase st.refresh_interval (fun _ => false)
      = 10 * st.refresh_interval := by
    unfold waitPhase
    rw [waitAux_full (fun _ => false) (fun _ => rfl) (10 * st.refresh_interval) 0]
    omega
  exact ⟨h1, by rw [hcb], by rw [hcb], by rw [hcb], h5⟩

/-- Witness for C5: interval 5s (50 ticks), `r` pressed at t=1s (tick 10),
endpoint live. -/
theorem rebuild_restarts_cycle_immediately_witness :
    waitPhase 5 (fun t => decide (10 ≤ t)) ≤ 10
    ∧ (cycleBody ⟨.ok (.obj [("cpu", .num 50)]), ⟨"10:00:00", 0, 0⟩⟩
        ⟨false, false, 5, some (.obj [("cpu", .num 25)]), true, false, .initial⟩).fetched = true
    ∧ (cycleBody ⟨.ok (.obj [("cpu", .num 50)]), ⟨"10:00:00", 0, 0⟩⟩
        ⟨false, false, 5, some (.obj [("cpu", .num 25)]), true, false, .initial⟩).state.rebuild_event = false := by
  have h := rebuild_restarts_cycle_immediately 5 10 (fun t => decide (10 ≤ t))
    ⟨.ok (.obj [("cpu", .num 50)]), ⟨"10:00:00", 0, 0⟩⟩
    ⟨false, false, 5, some (.obj [("cpu", .num 25)]), true, false, .initial⟩
    (.obj [("cpu", .num 50)])
    (by decide) (fun t ht => decide_eq_true ht) rfl rfl rfl rfl rfl rfl
  exact ⟨h.1, h.2.1, h.2.2.1⟩

/-- Claim C6: once the exit event is raised (a `q` press) and stays
raised, the interruptible wait returns at the poll that first observes it
-- within one 100ms polling quantum of the press -- for every configured
interval up to the maximum of 60 seconds: the wait polls at fine grain
(`time.sleep(0.1)`, cli.py line 440) instead of sleeping the whole
interval, so quit latency is independent of `refresh_interval`. The loop
condition `while not exit_event.is_set()` then stops the loop (no cycle
ever clears the exit event: `cycle_exit_eq`). -/
theorem quit_latency_bounded_by_poll (interval k : Nat) (ev : Nat → Bool)
    (_hil : interval ≤ 60) (hev : ∀ t, k ≤ t → ev t = true) :
    waitPhase interval ev ≤ k := by
  have := waitAux_le_of_ev k ev hev (10 * interval) 0
  simpa [waitPhase, Nat.zero_max] using this

/-- Witness for C6: interval at the maximum of 60s, quit raised at
tick 3. -/
theorem quit_latency_bounded_by_poll_witness :
    waitPhase 60 (fun t => decide (3 ≤ t)) ≤ 3 :=
  quit_latency_bounded_by_poll 60 3 (fun t => decide (3 ≤ t)) (by decide)
    (fun t ht => decide_eq_true ht)

/-- Claim C8, amended. Rendering never mutates the shared dashboard state:
a full cycle -- whose only writers besides the fetch assignment are the
render calls -- leaves `is_paused`, `show_help_flag`, `refresh_interval`
and the exit event untouched (only the keyboard listener writes them), and
the layout builders are functions of their arguments alone, with the
wall-clock reading as an additional argument. The original claim's
assertion that the display tree depends only on (state view, snapshot) is
false: `build_summary` reads `datetime.now()` (cli.py line 126), so two
invocations at different clock instants differ (see the
counterexample). -/
theorem renderer_no_shared_state_writes (env : CycleEnv) (st : LoopState) :
    (cycleBody env st).state.is_paused = st.is_paused
    ∧ (cycleBody env st).state.show_help_flag = st.show_help_flag
    ∧ (cycleBody env st).state.refresh_interval = st.refresh_interval
    ∧ (cycleBody env st).state.exit_event = st.exit_event :=
  ⟨cycle_paused_eq env st, cycle_help_eq env st, cycle_interval_eq env st,
   cycle_exit_eq env st⟩

/-- Counterexample to C8 as stated: with the state view (not paused, no
help, interval 5) and the snapshot `{"x": 1}` both held fixed, two
invocations of `build_summary` one second apart produce different display
trees -- the current-time row embeds the `datetime.now()` reading, which
is not among the inputs the claim allows. -/
theorem renderer_depends_on_clock :
    build_summary "10:00:00" false (.obj [("x", .num 1)]) 5
      = .ok (.panel (.strGrid [["Heure actuelle", "[bold]10:00:00[/bold]"], ["", ""],
          ["[bold green]CPU:[/bold green] 0.0%",
           "[bold yellow]RAM:[/bold yellow] 0.0% / 0.0 B"], ["", ""]])
          none (some "cyan") (some "Taux de rafraîchissement : 5s"))
    ∧ build_summary "10:00:01" false (.obj [("x", .num 1)]) 5
      = .ok (.panel (.strGrid [["Heure actuelle", "[bold]10:00:01[/bold]"], ["", ""],
          ["[bold green]CPU:[/bold green] 0.0%",
           "[bold yellow]RAM:[/bold yellow] 0.0% / 0.0 B"], ["", ""]])
          none (some "cyan") (some "Taux de rafraîchissement : 5s")) :=
  ⟨rfl, rfl⟩

/-- Claim C9: `time_until` is total on arbitrary string input -- it always
returns a string (the whole body is guarded by `except Exception`):
(i) when the (Z-normalised) input does not parse as an ISO-8601 timestamp
the result is `"N/A"`; (ii) when the parsed expiry is at or before the
current time the result is the expired marker, never a negative duration;
(iii) every result is `"N/A"`, the expired marker, or the rendering of a
strictly positive remaining duration. -/
theorem time_until_total_branches :
    (∀ (off now : Int) (s : String),
        isoToEpoch off (replaceChar s 'Z' "+00:00") = none →
          time_until off now s = "N/A")
    ∧ (∀ (off now t : Int) (s : String),
        isoToEpoch off (replaceChar s 'Z' "+00:00") = some t → t ≤ now →
          time_until off now s = "[bold red]Expiré[/bold red]")
    ∧ (∀ (off now : Int) (s : String),
        time_until off now s = "N/A"
        ∨ time_until off now s = "[bold red]Expiré[/bold red]"
        ∨ ∃ d : Int, 0 < d ∧ time_until off now s = str_timedelta d) := by
  refine ⟨?_, ?_, ?_⟩
  · intro off now s h
    unfold time_until
    rw [h]
  · intro off now t s h hle
    unfold time_until
    rw [h]
    dsimp only
    rw [if_pos (by omega : t - now ≤ 0)]
  · intro off now s
    unfold time_until
    cases h : isoToEpoch off (replaceChar s 'Z' "+00:00") with
    | none => exact Or.inl rfl
    | some t =>
      dsimp only
      by_cases hle : t - now ≤ 0
      · exact Or.inr (Or.inl (by rw [if_pos hle]))
      · exact Or.inr (Or.inr ⟨t - now, by omega, by rw [if_neg hle]⟩)

/-- Witness for C9: an unparseable string yields `"N/A"`; an expiry equal
to the current instant yields the expired marker. -/
theorem time_until_total_branches_witness :
    time_until 0 0 "garbage" = "N/A"
    ∧ time_until 0 1577836800 "2020-01-01T00:00:00Z" = "[bold red]Expiré[/bold red]" :=
  ⟨time_until_total_branches.1 0 0 "garbage" (by decide),
   time_until_total_branches.2.1 0 1577836800 1577836800 "2020-01-01T00:00:00Z"
     (by decide) (by omega)⟩

theorem hrs_aux_eq_of_lt (units : List String) :
    ∀ (fb1 fb2 : String) (num den : Int), 0 < den →
      num < 1024 ^ units.length * den → units ≠ [] →
      hrs_aux fb1 units num den = hrs_aux fb2 units num den := by
  induction units with
  | nil => intro fb1 fb2 num den _ _ hne; exact absurd rfl hne
  | cons u us ih =>
    intro fb1 fb2 num den hden hlt _
    unfold hrs_aux
    by_cases hq : num < 1024 * den
    · rw [if_pos hq, if_pos hq]
    · rw [if_neg hq, if_neg hq]
      cases us with
      | nil =>
        exfalso
        apply hq
        calc num < 1024 ^ ([u] : List String).length * den := hlt
          _ = 1024 * den := by norm_num
      | cons v vs =>
        apply ih
        · positivity
        · calc num < 1024 ^ (u :: v :: vs).length * den := hlt
            _ = 1024 ^ (v :: vs).length * (1024 * den) := by
              simp only [List.length_cons]
              ring
        · simp

/-- Claim C10, amended. The two `human_readable_size` implementations
agree on every size below the fallback threshold `1024^5` (where the unit
loop terminates before exhausting `["B","KB","MB","GB","TB"]`), but they
are not extensionally equal: at and above `1024^5` cli.py falls back to
the unit `TB` while cli-condensed.py falls back to `PB` (see the
counterexample). -/
theorem human_readable_size_agree_below_fallback (q : ℚ) (_h0 : 0 ≤ q)
    (hlt : q < 1024 ^ 5) :
    human_readable_size q = human_readable_size_condensed q := by
  unfold human_readable_size human_readable_size_condensed
  apply hrs_aux_eq_of_lt ["B", "KB", "MB", "GB", "TB"] "TB" "PB" q.num (q.den : Int)
  · exact_mod_cast q.den_pos
  · have hq : (q.num : ℚ) / (q.den : ℚ) < 1024 ^ 5 := by
      rw [Rat.num_div_den]
      exact hlt
    rw [div_lt_iff₀ (by exact_mod_cast q.den_pos : (0 : ℚ) < (q.den : ℚ))] at hq
    have h2 : q.num < 1024 ^ 5 * (q.den : Int) := by exact_mod_cast hq
    simpa using h2
  · simp

/-- Witness for the amended C10 at a concrete size below the fallback. -/
theorem human_readable_size_agree_below_fallback_witness :
    human_readable_size (512 : ℚ) = human_readable_size_condensed (512 : ℚ) :=
  human_readable_size_agree_below_fallback 512 (by norm_num) (by norm_num)

/-- Counterexample to C10 as stated: at size `1125899906842624 = 1024^5`
the two implementations disagree -- cli.py (whose fallback f-string reuses
`TB`) renders `"1.0 TB"`, cli-condensed.py (fallback `PB`) renders
`"1.0 PB"`. -/
theorem human_readable_size_fallback_units_differ :
    human_readable_size (1125899906842624 : ℚ) = "1.0 TB"
    ∧ human_readable_size_condensed (1125899906842624 : ℚ) = "1.0 PB" :=
  ⟨rfl, rfl⟩
